import Mathlib

/-!
Shallow embedding of `risk_analyzer.py` (outbound-voice-agent): the customer
risk analysis engine for debt collection transcripts.  Python strings are
Lean `String`s, Python `in` (substring) is `inStr`, Python floats are `ℚ`
(all arithmetic in the analyzer is exact in the ranges exercised), and the
JSON transcript record is a `List Item` (the file I/O and JSON decoding are
out of scope per the spec; the engine is modelled from the parsed item list).
-/

namespace RiskAnalyzer

/-- Python `needle.isPrefix-like` helper over char lists: does the first list
lead the second? -/
def leadsWith : List Char → List Char → Bool
  | [], _ => true
  | _ :: _, [] => false
  | a :: as1, b :: bs => a == b && leadsWith as1 bs

/-- Substring containment over char lists (naive scan). -/
def containsSub (needle : List Char) : List Char → Bool
  | [] => leadsWith needle []
  | c :: t => leadsWith needle (c :: t) || containsSub needle t

/-- Python `needle in hay` for strings. -/
def inStr (needle hay : String) : Bool :=
  containsSub needle.toList hay.toList

/-- Python `len(s.split())`: number of maximal non-whitespace runs. -/
def splitCount : List Char → Bool → Nat
  | [], _ => 0
  | c :: rest, inWord =>
    if c.isWhitespace then splitCount rest false
    else if inWord then splitCount rest true
    else 1 + splitCount rest true

def wordCount (s : String) : Nat :=
  splitCount s.toList false

/-- Python `sum(1 for keyword in keywords if keyword in content)`. -/
def countMatches (keywords : List String) (content : String) : Nat :=
  (keywords.filter (fun k => inStr k content)).length

/-- Python builtin `max` on two rationals (kernel-reducible). -/
def pymax (a b : ℚ) : ℚ := if a ≤ b then b else a

/-- Python builtin `min` on two rationals (kernel-reducible). -/
def pymin (a b : ℚ) : ℚ := if a ≤ b then a else b

/-- Python builtin `max` on two machine integers (counts are nonnegative). -/
def pymaxN (a b : ℕ) : ℕ := if a ≤ b then b else a

theorem pymax_eq (a b : ℚ) : pymax a b = max a b := by
  unfold pymax
  split_ifs with h
  · exact (max_eq_right h).symm
  · exact (max_eq_left (le_of_not_le h)).symm

theorem pymin_eq (a b : ℚ) : pymin a b = min a b := by
  unfold pymin
  split_ifs with h
  · exact (min_eq_left h).symm
  · exact (min_eq_right (le_of_not_le h)).symm

theorem pymaxN_eq (a b : ℕ) : pymaxN a b = max a b := by
  unfold pymaxN
  split_ifs with h
  · exact (Nat.max_eq_right h).symm
  · exact (Nat.max_eq_left (le_of_not_le h)).symm

/-- `high_risk_keywords` list from `CustomerRiskAnalyzer.__init__` (verbatim,
including the duplicate listing of "bankruptcy"). -/
def high_risk_keywords : List String := [
  "can\x27t pay", "no money", "broke", "unemployed", "lost job",
  "bankruptcy", "lawyer", "dispute", "wrong", "not mine",
  "never received", "scam", "harassment", "sue", "court",
  "refuse", "won\x27t pay", "can\x27t afford", "financial hardship",
  "पैसे नहीं", "पैसा नहीं", "बेरोजगार", "नौकरी नहीं", "गलत", "मेरा नहीं",
  "नहीं मिला", "धोखा", "गलत नंबर", "वकील", "अदालत", "केस", "मना करता",
  "paisa nahi", "paise nahi", "berozgar", "naukri nahi", "galat hai",
  "mera nahi", "nahi mila", "dhoka", "galat number", "vakeel", "adalat",
  "case karunga", "mana karta", "afford nahi kar sakta", "bankruptcy",
  "paisa khatam", "financial problem", "court jaaunga", "lawyer se baat"]

/-- `medium_risk_keywords` list (verbatim, including the duplicate listing of
"payment plan"). -/
def medium_risk_keywords : List String := [
  "difficult", "tight", "struggling", "need time", "extension",
  "payment plan", "partial", "later", "next month", "busy",
  "forgot", "remind me", "will try", "maybe", "not sure",
  "मुश्किल", "परेशानी", "समय चाहिए", "भूल गया", "बाद में", "अगले महीने",
  "व्यस्त", "कोशिश करूंगा", "शायद", "पता नहीं", "थोड़ा समय",
  "mushkil", "pareshani", "samay chahiye", "bhul gaya", "baad mein",
  "agle mahine", "vyast", "busy hun", "koshish karunga", "shayad",
  "pata nahi", "thoda samay", "time chahiye", "extension chahiye",
  "payment plan", "partial payment", "installment mein", "emi mein"]

/-- `low_risk_keywords` list (verbatim, including the duplicate listings of
"thank you", "confirm" and "agreed"). -/
def low_risk_keywords : List String := [
  "yes", "okay", "sure", "will pay", "today", "tomorrow",
  "understand", "sorry", "apologize", "thank you", "appreciate",
  "payment", "pay now", "confirm", "agreed", "right away",
  "हाँ", "ठीक", "समझ गया", "माफ़ करो", "धन्यवाद", "शुक्रिया", "सही",
  "आज", "कल", "अभी", "तुरंत", "पेमेंट", "भुगतान", "देता हूँ",
  "haan", "theek", "theek hai", "samjh gaya", "maaf karo", "dhanyawad",
  "shukriya", "thank you", "sahi", "aaj", "kal", "abhi", "turant",
  "payment kar dunga", "paisa de dunga", "bhugtan", "pay kar dunga",
  "samay pe dunga", "confirm", "agreed", "bilkul", "zaroor"]

/-- `cooperation_indicators` list (verbatim). -/
def cooperation_indicators : List String := [
  "thank you", "sorry", "understand", "appreciate", "yes",
  "okay", "sure", "will do", "agreed", "right",
  "haan", "theek", "theek hai", "samjh gaya", "maaf karo", "shukriya",
  "dhanyawad", "bilkul", "zaroor", "kar dunga", "de dunga", "samjha",
  "acha", "sahi", "ठीक", "हाँ", "समझ गया", "माफ़ करो", "धन्यवाद",
  "शुक्रिया", "बिल्कुल", "जरूर", "अच्छा", "सही"]

/-- `non_cooperation_indicators` list (verbatim, including the duplicate
listings of "busy" and "call back"). -/
def non_cooperation_indicators : List String := [
  "no", "can\x27t", "won\x27t", "refuse", "busy", "later", "maybe",
  "not now", "call back", "don\x27t have time", "not interested",
  "nahi", "nahin", "mana", "vyast", "busy", "baad mein", "phone rakh",
  "time nahi", "interested nahi", "pareshaan mat karo", "tang mat karo",
  "नहीं", "मना", "व्यस्त", "बाद में", "फोन रख", "समय नहीं", "परेशान मत करो",
  "तंग मत करो", "call back", "later call karo", "abhi nahi"]

/-- `positive_words` list from `_analyze_sentiment` (verbatim). -/
def positive_words : List String := [
  "thank", "sorry", "appreciate", "understand", "yes", "okay", "good", "fine",
  "great", "excellent", "wonderful", "happy", "pleased", "satisfied",
  "dhanyawad", "shukriya", "maaf karo", "samjh gaya", "theek", "acha", "badhiya",
  "khushi", "santushti", "prasanna", "haan", "bilkul", "zaroor", "accha",
  "sahi", "badiya", "mast", "sundar", "samjha", "theek hai",
  "धन्यवाद", "शुक्रिया", "माफ़ करो", "समझ गया", "ठीक", "अच्छा", "बढ़िया",
  "खुशी", "संतुष्टि", "प्रसन्न", "हाँ", "बिल्कुल", "जरूर", "सही"]

/-- `negative_words` list from `_analyze_sentiment` (verbatim). -/
def negative_words : List String := [
  "no", "can\x27t", "won\x27t", "angry", "upset", "wrong", "bad", "hate", "refuse",
  "terrible", "awful", "horrible", "disgusted", "furious", "annoyed",
  "nahi", "nahin", "gussa", "pareshaan", "galat", "bura", "nafrat", "mana",
  "tang", "irritate", "problem", "mushkil", "takleef", "dukh", "ghussa",
  "pareshan", "khafa", "chid", "badtameez", "bakwas",
  "नहीं", "गुस्सा", "परेशान", "गलत", "बुरा", "नफरत", "मना", "तंग",
  "समस्या", "मुश्किल", "तकलीफ", "दुःख", "खफा", "चिढ़", "बदतमीज", "बकवास"]

/-- `hindi_indicators` from `_detect_language_switching`. -/
def hindi_indicators : List String :=
  ["nahi", "hai", "kar", "se", "mein", "ko", "ka", "ki", "ke"]

/-- `english_indicators` from `_detect_language_switching`. -/
def english_indicators : List String :=
  ["the", "and", "is", "are", "can", "will", "have", "not"]

/-- A user message as built in `analyze_transcript`: lowercased joined content,
`interrupted` flag (default `False`), `transcript_confidence` (default `1.0`). -/
structure UserMsg where
  content : String
  interrupted : Bool
  confidence : ℚ
deriving DecidableEq, Repr

/-- An assistant message as built in `analyze_transcript`. -/
structure AsstMsg where
  content : String
  interrupted : Bool
deriving DecidableEq, Repr

/-- One transcript item, post JSON decoding.  Python reads fields via
`item.get(...)`; absent `type`/`role` (Python `None`) compare unequal to
every string and are modelled by any string other than
"message"/"user"/"assistant"; `content` defaults to `[]`, `interrupted`
to `False`, `transcript_confidence` to `1.0`, as in the `.get` defaults. -/
structure Item where
  type : String
  role : String
  content : List String
  interrupted : Bool
  transcript_confidence : ℚ
deriving DecidableEq, Repr

/-- The item loop of `analyze_transcript`: keep only `type == "message"`
items, join content fragments with a space and lowercase, route by role
into the user and assistant message lists (any other role goes nowhere). -/
def extract_messages : List Item → List UserMsg × List AsstMsg
  | [] => ([], [])
  | item :: rest =>
    let tail := extract_messages rest
    if item.type = "message" then
      let content := (String.intercalate " " item.content).toLower
      if item.role = "user" then
        (⟨content, item.interrupted, item.transcript_confidence⟩ :: tail.1, tail.2)
      else if item.role = "assistant" then
        (tail.1, ⟨content, item.interrupted⟩ :: tail.2)
      else tail
    else tail

/-- Loop body of `_analyze_sentiment`: accumulate `(total_sentiment,
message_count)` over one message. -/
def sentiment_step (acc : ℚ × Nat) (msg : UserMsg) : ℚ × Nat :=
  let positive_count := countMatches positive_words msg.content
  let negative_count := countMatches negative_words msg.content
  if 0 < positive_count ∨ 0 < negative_count then
    (acc.1 + ((positive_count : ℚ) - (negative_count : ℚ)) /
        ((pymaxN (positive_count + negative_count) 1 : ℕ) : ℚ),
     acc.2 + 1)
  else acc

/-- `_analyze_sentiment`: mean per-message sentiment over messages that have
at least one positive or negative hit; `0.0` for an empty message list. -/
def analyze_sentiment (user_messages : List UserMsg) : ℚ :=
  if user_messages.isEmpty then 0
  else
    let r := user_messages.foldl sentiment_step (0, 0)
    r.1 / ((pymaxN r.2 1 : ℕ) : ℚ)

/-- Loop body of `_analyze_cooperation`: each matched cooperation indicator
adds `+1` point and `+1` total, each matched non-cooperation indicator adds
`-1` point and `+1` total (one per matching list entry). -/
def cooperation_step (acc : Int × Nat) (msg : UserMsg) : Int × Nat :=
  let coop := countMatches cooperation_indicators msg.content
  let noncoop := countMatches non_cooperation_indicators msg.content
  (acc.1 + coop - noncoop, acc.2 + coop + noncoop)

/-- `_analyze_cooperation`: neutral `50.0` for no messages or no indicator
hits, otherwise `max(0, min(100, 50 + (points/total) * 50))`. -/
def analyze_cooperation (user_messages : List UserMsg) : ℚ :=
  if user_messages.isEmpty then 50
  else
    let r := user_messages.foldl cooperation_step (0, 0)
    if r.2 = 0 then 50
    else pymax 0 (pymin 100 (50 + ((r.1 : ℚ) / (r.2 : ℚ)) * 50))

/-- `_analyze_keywords`: `0.0` for no messages, otherwise the weighted count
of matching lexicon list entries over the space-joined customer text,
clipped into `[0, 100]`. -/
def analyze_keywords (user_messages : List UserMsg) : ℚ :=
  if user_messages.isEmpty then 0
  else
    let all_content := String.intercalate " " (user_messages.map UserMsg.content)
    let high_risk_count := countMatches high_risk_keywords all_content
    let medium_risk_count := countMatches medium_risk_keywords all_content
    let low_risk_count := countMatches low_risk_keywords all_content
    let risk_score : ℚ := (high_risk_count : ℚ) * 30 +
      (medium_risk_count : ℚ) * 15 - (low_risk_count : ℚ) * 10
    pymax 0 (pymin 100 risk_score)

/-- `_analyze_conversation_flow`: additive risk from interruptions, short
responses and low transcript confidence, capped at 100.  The assistant
message list is a parameter of the Python function but is never read. -/
def analyze_conversation_flow (user_messages : List UserMsg)
    (assistant_messages : List AsstMsg) : ℚ :=
  let risk0 : ℚ := 0
  let user_interruptions := (user_messages.filter (fun m => m.interrupted)).length
  let risk1 := if 2 < user_interruptions then risk0 + 20 else risk0
  let short_responses :=
    (user_messages.filter (fun m => wordCount m.content ≤ 2)).length
  let risk2 := if 0 < user_messages.length ∧
      (short_responses : ℚ) / (user_messages.length : ℚ) > 7/10
    then risk1 + 15 else risk1
  let low_confidence_count :=
    (user_messages.filter (fun m => m.confidence < 7/10)).length
  let risk3 := if 0 < user_messages.length ∧
      (low_confidence_count : ℚ) / (user_messages.length : ℚ) > 1/2
    then risk2 + 10 else risk2
  pymin 100 risk3

/-- `_calculate_risk_score`: weighted aggregation of the four signals into a
`[0, 100]` score. -/
def calculate_risk_score (sentiment cooperation keyword_risk flow_risk : ℚ) : ℚ :=
  let sentiment_risk := pymax 0 ((1 - sentiment) * 50)
  let cooperation_risk := 100 - cooperation
  let risk_score :=
    sentiment_risk * (25/100) + cooperation_risk * (35/100) +
    keyword_risk * (30/100) + flow_risk * (10/100)
  pymin 100 (pymax 0 risk_score)

/-- The `RiskLevel` enum. -/
inductive RiskLevel
  | LOW
  | MEDIUM
  | HIGH
  | CRITICAL
deriving DecidableEq, Repr

/-- `_determine_risk_level`: threshold ladder on the risk score. -/
def determine_risk_level (risk_score : ℚ) : RiskLevel :=
  if risk_score ≥ 75 then RiskLevel.CRITICAL
  else if risk_score ≥ 50 then RiskLevel.HIGH
  else if risk_score ≥ 25 then RiskLevel.MEDIUM
  else RiskLevel.LOW

/-- Per-turn language label in `_detect_language_switching`:
Hindi-dominant, English-dominant, or mixed/neutral. -/
inductive Lang
  | H
  | E
  | M
deriving DecidableEq, Repr

/-- Turn classification step of `_detect_language_switching`. -/
def classify_turn (content : String) : Lang :=
  let hindi_count := countMatches hindi_indicators content
  let english_count := countMatches english_indicators content
  if english_count < hindi_count then Lang.H
  else if hindi_count < english_count then Lang.E
  else Lang.M

/-- Switch-counting loop of `_detect_language_switching`: adjacent pairs that
differ and touch no `M`. -/
def count_switches : List Lang → Nat
  | a :: b :: rest =>
    (if a ≠ b ∧ a ≠ Lang.M ∧ b ≠ Lang.M then 1 else 0) + count_switches (b :: rest)
  | _ => 0

/-- `_detect_language_switching`: `False` below 3 customer turns, else flag
when switches exceed 30% of the turn count. -/
def detect_language_switching (user_messages : List UserMsg) : Bool :=
  if user_messages.length < 3 then false
  else
    let language_pattern := user_messages.map (fun m => classify_turn m.content)
    let switches := count_switches language_pattern
    decide ((switches : ℚ) > (language_pattern.length : ℚ) * (3/10))

/-- `evasive_phrases` from `_detect_hinglish_patterns`. -/
def evasive_phrases : List String := [
  "abhi busy hun", "time nahi hai", "baad mein call karo",
  "pareshaan mat karo", "tang mat karo", "galat number hai",
  "mujhe pata nahi", "kuch nahi pata", "samjh nahi aaya"]

/-- `hostile_phrases` from `_detect_hinglish_patterns`. -/
def hostile_phrases : List String := [
  "phone rakh", "bakwas mat karo", "jhooth bol rahe ho",
  "scam hai ye", "fraud company", "police complaint karunga"]

/-- `distress_phrases` from `_detect_hinglish_patterns` (verbatim; note the
uppercase "EMI" entry, which can never match the lowercased content). -/
def distress_phrases : List String := [
  "paisa nahi hai", "afford nahi kar sakta", "salary nahi aayi",
  "job chali gayi", "business band ho gaya", "EMI bhi nahi de pa raha"]

/-- `_detect_hinglish_patterns`: evasive, then hostile, then financial
distress phrase matches, each rendered with its category tag. -/
def detect_hinglish_patterns (content : String) : List String :=
  ((evasive_phrases.filter (fun p => inStr p content)).map
    (fun p => "Evasive Hinglish phrase: \x27" ++ p ++ "\x27")) ++
  ((hostile_phrases.filter (fun p => inStr p content)).map
    (fun p => "Hostile Hinglish phrase: \x27" ++ p ++ "\x27")) ++
  ((distress_phrases.filter (fun p => inStr p content)).map
    (fun p => "Financial distress indicator: \x27" ++ p ++ "\x27"))

/-- The translation dict of `_translate_keyword_for_report`. -/
def translations : List (String × String) := [
  ("पैसे नहीं", "no money"),
  ("पैसा नहीं", "no money"),
  ("बेरोजगार", "unemployed"),
  ("नौकरी नहीं", "no job"),
  ("गलत", "wrong"),
  ("मेरा नहीं", "not mine"),
  ("नहीं मिला", "never received"),
  ("धोखा", "fraud/scam"),
  ("वकील", "lawyer"),
  ("अदालत", "court"),
  ("केस", "case"),
  ("मुश्किल", "difficult"),
  ("परेशानी", "problem/trouble"),
  ("समय चाहिए", "need time"),
  ("भूल गया", "forgot"),
  ("बाद में", "later"),
  ("व्यस्त", "busy"),
  ("हाँ", "yes"),
  ("ठीक", "okay"),
  ("समझ गया", "understood"),
  ("माफ़ करो", "sorry"),
  ("धन्यवाद", "thank you"),
  ("शुक्रिया", "thank you"),
  ("नहीं", "no"),
  ("गुस्सा", "angry"),
  ("परेशान", "upset/troubled")]

/-- `_translate_keyword_for_report`: `translations.get(keyword, keyword)`. -/
def translate_keyword_for_report (keyword : String) : String :=
  match translations.lookup keyword with
  | some t => t
  | none => keyword

/-- `_identify_key_indicators`: high-risk keyword indicators, then
medium-risk, then Hinglish patterns, then structural flags (no responses /
very brief single response), then the language-switching flag; truncated to
the first 7. -/
def identify_key_indicators (user_messages : List UserMsg) : List String :=
  let all_content := String.intercalate " " (user_messages.map UserMsg.content)
  let high_inds := (high_risk_keywords.filter (fun k => inStr k all_content)).map
    (fun k => "High risk keyword: \x27" ++ translate_keyword_for_report k ++ "\x27")
  let medium_inds := (medium_risk_keywords.filter (fun k => inStr k all_content)).map
    (fun k => "Medium risk keyword: \x27" ++ translate_keyword_for_report k ++ "\x27")
  let hinglish := detect_hinglish_patterns all_content
  let structural :=
    match user_messages with
    | [] => ["No user responses - possible call avoidance"]
    | [m] => if wordCount m.content ≤ 2 then
        ["Very brief response - possible disengagement"] else []
    | _ => []
  let switching := if detect_language_switching user_messages then
    ["Frequent language switching - possible avoidance tactic"] else []
  (high_inds ++ medium_inds ++ hinglish ++ structural ++ switching).take 7

/-- `_get_hinglish_recommendations`: category-specific follow-up lines keyed
off the joined, lowercased indicator text; all checks independent. -/
def get_hinglish_recommendations (indicators : List String) : List String :=
  let indicator_text := (String.intercalate " " indicators).toLower
  (if inStr "evasive hinglish phrase" indicator_text then
    ["Customer using evasive Hinglish - try direct Hindi approach"] else []) ++
  (if inStr "hostile hinglish phrase" indicator_text then
    ["Customer showing hostility in Hinglish - escalate to Hindi-speaking senior agent"]
   else []) ++
  (if inStr "financial distress indicator" indicator_text then
    ["Financial distress detected - offer EMI/installment options in Hindi"] else []) ++
  (if inStr "language switching" indicator_text then
    ["Customer switching languages - may indicate discomfort, use consistent Hindi"]
   else []) ++
  (if indicators.any (fun ind =>
      inStr "no money" ind || inStr "unemployed" ind || inStr "no job" ind) then
    ["Financial hardship indicated - consider compassionate collection approach"]
   else []) ++
  (if indicators.any (fun ind =>
      inStr "lawyer" ind || inStr "court" ind || inStr "case" ind) then
    ["Legal threats detected - document thoroughly and involve legal team"] else [])

/-- `_generate_recommendations`: a base list fixed by risk level, one optional
cooperation line (`< 30` / `> 70`, mutually exclusive), then the Hinglish
recommendations. -/
def generate_recommendations (risk_level : RiskLevel) (indicators : List String)
    (cooperation_score : ℚ) : List String :=
  let base := match risk_level with
    | RiskLevel.CRITICAL => [
        "Escalate to senior collection specialist immediately",
        "Consider legal action or external collection agency",
        "Document all interactions thoroughly",
        "Review account for potential disputes or fraud"]
    | RiskLevel.HIGH => [
        "Schedule follow-up call within 24-48 hours",
        "Offer payment plan options",
        "Consider supervisor review of account",
        "Document customer concerns and objections"]
    | RiskLevel.MEDIUM => [
        "Follow up within 1 week",
        "Send payment reminder via email/SMS",
        "Monitor account closely for changes",
        "Be prepared to offer flexible payment options"]
    | RiskLevel.LOW => [
        "Standard follow-up schedule",
        "Customer appears cooperative",
        "Continue with normal collection process",
        "Consider this a positive interaction"]
  let withCoop :=
    if cooperation_score < 30 then
      base ++ ["Customer showed low cooperation - consider different approach"]
    else if cooperation_score > 70 then
      base ++ ["Customer was cooperative - maintain positive relationship"]
    else base
  withCoop ++ get_hinglish_recommendations indicators

/-- The `RiskAnalysis` dataclass, less `transcript_file` and
`analysis_timestamp` (the only I/O-dependent fields: the file name is the
caller's argument passed through and the timestamp reads the wall clock). -/
structure RiskAnalysis where
  risk_level : RiskLevel
  risk_score : ℚ
  sentiment_score : ℚ
  cooperation_score : ℚ
  key_indicators : List String
  recommendations : List String
deriving DecidableEq, Repr

/-- `analyze_transcript`, from the decoded item list onward (file reading and
JSON decoding are the external TranscriptSource). -/
def analyze_transcript_items (items : List Item) : RiskAnalysis :=
  let msgs := extract_messages items
  let user_messages := msgs.1
  let assistant_messages := msgs.2
  let sentiment_score := analyze_sentiment user_messages
  let cooperation_score := analyze_cooperation user_messages
  let keyword_risk_score := analyze_keywords user_messages
  let conversation_flow_score :=
    analyze_conversation_flow user_messages assistant_messages
  let risk_score := calculate_risk_score sentiment_score cooperation_score
    keyword_risk_score conversation_flow_score
  let risk_level := determine_risk_level risk_score
  let key_indicators := identify_key_indicators user_messages
  let recommendations :=
    generate_recommendations risk_level key_indicators cooperation_score
  ⟨risk_level, risk_score, sentiment_score, cooperation_score,
    key_indicators, recommendations⟩

/-! ### Projection lemmas for `analyze_transcript_items` -/

theorem risk_score_eq (items : List Item) :
    (analyze_transcript_items items).risk_score =
      calculate_risk_score
        (analyze_sentiment (extract_messages items).1)
        (analyze_cooperation (extract_messages items).1)
        (analyze_keywords (extract_messages items).1)
        (analyze_conversation_flow (extract_messages items).1
          (extract_messages items).2) := rfl

theorem sentiment_eq (items : List Item) :
    (analyze_transcript_items items).sentiment_score =
      analyze_sentiment (extract_messages items).1 := rfl

theorem cooperation_eq (items : List Item) :
    (analyze_transcript_items items).cooperation_score =
      analyze_cooperation (extract_messages items).1 := rfl

theorem risk_level_eq (items : List Item) :
    (analyze_transcript_items items).risk_level =
      determine_risk_level (analyze_transcript_items items).risk_score := rfl

theorem key_indicators_eq (items : List Item) :
    (analyze_transcript_items items).key_indicators =
      identify_key_indicators (extract_messages items).1 := rfl

/-! ### Spec-side definitions for the refinement claims -/

/-- The RiskAggregator formula as written in the spec (§4.3):
`sentiment_risk = max(0, (1 - sentiment_score) * 50)`,
`cooperation_risk = 100 - cooperation_score`,
`risk_score = clip(0.25*sentiment_risk + 0.35*cooperation_risk +
0.30*keyword_risk + 0.10*flow_risk, 0, 100)`. -/
def risk_score_spec (sentiment_score cooperation_score keyword_risk flow_risk : ℚ) : ℚ :=
  let sentiment_risk := pymax 0 ((1 - sentiment_score) * 50)
  let cooperation_risk := 100 - cooperation_score
  pymin 100 (pymax 0 ((25/100) * sentiment_risk + (35/100) * cooperation_risk +
    (30/100) * keyword_risk + (10/100) * flow_risk))

/-- Rank of a risk level in the threshold ladder (Low < Medium < High <
Critical), used to state monotonicity. -/
def RiskLevel.rank : RiskLevel → Nat
  | RiskLevel.LOW => 0
  | RiskLevel.MEDIUM => 1
  | RiskLevel.HIGH => 2
  | RiskLevel.CRITICAL => 3

/-- Claim C2: the aggregate risk score equals
`clip(0.25*sentiment_risk + 0.35*cooperation_risk + 0.30*keyword_risk +
0.10*flow_risk, 0, 100)` with `sentiment_risk = max(0, (1-sentiment)*50)` and
`cooperation_risk = 100 - cooperation`; the aggregator is a pure function of
exactly these four inputs (in this embedding, a closed function of its four
arguments). -/
theorem C2_aggregator_formula (sentiment cooperation keyword_risk flow_risk : ℚ) :
    calculate_risk_score sentiment cooperation keyword_risk flow_risk =
      risk_score_spec sentiment cooperation keyword_risk flow_risk := by
  simp only [calculate_risk_score, risk_score_spec]
  ring_nf

/-- Claim C3: classification returns Critical iff score ≥ 75, High iff
50 ≤ score < 75, Medium iff 25 ≤ score < 50, Low iff score < 25 (so each
lower boundary is inclusive, the four cases are non-overlapping and
exhaustive), and the level is a monotone step function of the score alone. -/
theorem C3_threshold_ladder (s : ℚ) :
    ((determine_risk_level s = RiskLevel.CRITICAL ↔ 75 ≤ s) ∧
     (determine_risk_level s = RiskLevel.HIGH ↔ 50 ≤ s ∧ s < 75) ∧
     (determine_risk_level s = RiskLevel.MEDIUM ↔ 25 ≤ s ∧ s < 50) ∧
     (determine_risk_level s = RiskLevel.LOW ↔ s < 25)) ∧
    ∀ t, s ≤ t →
      (determine_risk_level s).rank ≤ (determine_risk_level t).rank := by
  constructor
  · unfold determine_risk_level
    split_ifs with h1 h2 h3 <;>
      refine ⟨⟨fun hc => ?_, fun hc => ?_⟩, ⟨fun hc => ?_, fun hc => ?_⟩,
        ⟨fun hc => ?_, fun hc => ?_⟩, ⟨fun hc => ?_, fun hc => ?_⟩⟩ <;>
      first
        | rfl
        | linarith
        | exact absurd hc (by decide)
        | constructor <;> linarith
  · intro t hst
    unfold determine_risk_level
    split_ifs <;> simp only [RiskLevel.rank] <;> first | rfl | omega | linarith

/-- Witness for C3 at the boundary scores 25 and 75. -/
theorem C3_threshold_ladder_witness :
    determine_risk_level 25 = RiskLevel.MEDIUM ∧
    (determine_risk_level 25).rank ≤ (determine_risk_level 75).rank :=
  ⟨(C3_threshold_ladder 25).1.2.2.1.mpr ⟨le_refl 25, by norm_num⟩,
   (C3_threshold_ladder 25).2 75 (by norm_num)⟩

/-! ### Bound lemmas for the three scores (claim C1) -/

theorem calculate_risk_score_bounds (s c k f : ℚ) :
    0 ≤ calculate_risk_score s c k f ∧ calculate_risk_score s c k f ≤ 100 := by
  unfold calculate_risk_score
  dsimp only
  simp only [pymin_eq, pymax_eq]
  exact ⟨le_min (by norm_num) (le_max_left 0 _), min_le_left 100 _⟩

theorem analyze_cooperation_bounds (u : List UserMsg) :
    0 ≤ analyze_cooperation u ∧ analyze_cooperation u ≤ 100 := by
  unfold analyze_cooperation
  dsimp only
  split_ifs
  · norm_num
  · norm_num
  · simp only [pymin_eq, pymax_eq]
    exact ⟨le_max_left 0 _, max_le (by norm_num) (min_le_left 100 _)⟩

/-- Fold invariant for `_analyze_sentiment`: the accumulated total sentiment
never exceeds the number of counted messages in absolute value, because each
counted message contributes `(pos - neg) / max(pos + neg, 1) ∈ [-1, 1]`. -/
theorem sentiment_foldl_abs_le (l : List UserMsg) (acc : ℚ × Nat)
    (h : |acc.1| ≤ (acc.2 : ℚ)) :
    |(l.foldl sentiment_step acc).1| ≤ ((l.foldl sentiment_step acc).2 : ℚ) := by
  induction l generalizing acc with
  | nil => exact h
  | cons m t ih =>
    simp only [List.foldl_cons]
    apply ih
    unfold sentiment_step
    dsimp only
    split_ifs
    · dsimp only
      set p := countMatches positive_words m.content with hp
      set n := countMatches negative_words m.content with hn
      set d := pymaxN (p + n) 1 with hd
      have hp0 : (0 : ℚ) ≤ (p : ℚ) := Nat.cast_nonneg _
      have hn0 : (0 : ℚ) ≤ (n : ℚ) := Nat.cast_nonneg _
      have hd1 : 1 ≤ d := by rw [hd, pymaxN_eq]; exact le_max_right _ _
      have hdpos : (0 : ℚ) < (d : ℚ) := by
        exact_mod_cast Nat.lt_of_lt_of_le Nat.zero_lt_one hd1
      have hpn : (p : ℚ) + (n : ℚ) ≤ (d : ℚ) := by
        rw [hd, pymaxN_eq, Nat.cast_max]
        push_cast
        exact le_max_left _ _
      have habs : |((p : ℚ) - (n : ℚ)) / (d : ℚ)| ≤ 1 := by
        rw [abs_div, abs_of_pos hdpos, div_le_one hdpos]
        calc |(p : ℚ) - (n : ℚ)| ≤ (p : ℚ) + (n : ℚ) :=
              abs_le.mpr ⟨by linarith, by linarith⟩
          _ ≤ (d : ℚ) := hpn
      calc |acc.1 + ((p : ℚ) - (n : ℚ)) / (d : ℚ)|
          ≤ |acc.1| + |((p : ℚ) - (n : ℚ)) / (d : ℚ)| := abs_add _ _
        _ ≤ (acc.2 : ℚ) + 1 := add_le_add h habs
        _ = ((acc.2 + 1 : Nat) : ℚ) := by push_cast; ring
    · exact h

theorem analyze_sentiment_bounds (u : List UserMsg) :
    -1 ≤ analyze_sentiment u ∧ analyze_sentiment u ≤ 1 := by
  unfold analyze_sentiment
  dsimp only
  split_ifs
  · norm_num
  · have hb := sentiment_foldl_abs_le u (0, 0) (by norm_num)
    set r := u.foldl sentiment_step (0, 0) with hr
    set d := pymaxN r.2 1 with hd
    have hd1 : 1 ≤ d := by rw [hd, pymaxN_eq]; exact le_max_right _ _
    have hdpos : (0 : ℚ) < (d : ℚ) := by
      exact_mod_cast Nat.lt_of_lt_of_le Nat.zero_lt_one hd1
    have hr2 : ((r.2 : ℕ) : ℚ) ≤ (d : ℚ) := by
      rw [hd, pymaxN_eq, Nat.cast_max]
      exact le_max_left _ _
    have habs : |r.1 / (d : ℚ)| ≤ 1 := by
      rw [abs_div, abs_of_pos hdpos, div_le_one hdpos]
      exact le_trans hb hr2
    exact abs_le.mp habs

/-! ### Empty-transcript behaviour (claims C6 and C10) -/

theorem sentiment_nil : analyze_sentiment [] = 0 := rfl

theorem cooperation_nil : analyze_cooperation [] = 50 := rfl

theorem keywords_nil : analyze_keywords [] = 0 := rfl

theorem flow_nil (a : List AsstMsg) : analyze_conversation_flow [] a = 0 :=
  of_decide_eq_true (by with_unfolding_all rfl)

/-- Claim C1: for every input transcript record the produced RiskAnalysis
satisfies `risk_score ∈ [0,100]`, `sentiment_score ∈ [-1,1]` and
`cooperation_score ∈ [0,100]`. -/
theorem C1_score_ranges (items : List Item) :
    (0 ≤ (analyze_transcript_items items).risk_score ∧
      (analyze_transcript_items items).risk_score ≤ 100) ∧
    (-1 ≤ (analyze_transcript_items items).sentiment_score ∧
      (analyze_transcript_items items).sentiment_score ≤ 1) ∧
    (0 ≤ (analyze_transcript_items items).cooperation_score ∧
      (analyze_transcript_items items).cooperation_score ≤ 100) := by
  rw [risk_score_eq, sentiment_eq, cooperation_eq]
  exact ⟨calculate_risk_score_bounds _ _ _ _, analyze_sentiment_bounds _,
    analyze_cooperation_bounds _⟩

/-- Claim C6: a transcript with zero customer turns (no message items, or no
item with role "user") is not an error: the analysis yields cooperation 50,
keyword risk 0, flow risk 0, sentiment 0, and the "possible call avoidance"
indicator is present. -/
theorem C6_empty_transcript_defaults (items : List Item)
    (h : (extract_messages items).1 = []) :
    (analyze_transcript_items items).cooperation_score = 50 ∧
    analyze_keywords (extract_messages items).1 = 0 ∧
    analyze_conversation_flow (extract_messages items).1
      (extract_messages items).2 = 0 ∧
    (analyze_transcript_items items).sentiment_score = 0 ∧
    "No user responses - possible call avoidance" ∈
      (analyze_transcript_items items).key_indicators := by
  refine ⟨?_, ?_, ?_, ?_, ?_⟩
  · rw [cooperation_eq, h, cooperation_nil]
  · rw [h, keywords_nil]
  · rw [h, flow_nil]
  · rw [sentiment_eq, h, sentiment_nil]
  · rw [key_indicators_eq, h]
    have hind : identify_key_indicators [] =
        ["No user responses - possible call avoidance"] :=
      of_decide_eq_true (by with_unfolding_all rfl)
    rw [hind]
    exact List.mem_singleton.mpr rfl

/-- Witness for C6 on the empty item list. -/
theorem C6_empty_transcript_defaults_witness :
    (extract_messages ([] : List Item)).1 = [] ∧
    ((analyze_transcript_items ([] : List Item)).cooperation_score = 50 ∧
     analyze_keywords (extract_messages ([] : List Item)).1 = 0 ∧
     analyze_conversation_flow (extract_messages ([] : List Item)).1
       (extract_messages ([] : List Item)).2 = 0 ∧
     (analyze_transcript_items ([] : List Item)).sentiment_score = 0 ∧
     "No user responses - possible call avoidance" ∈
       (analyze_transcript_items ([] : List Item)).key_indicators) :=
  ⟨rfl, C6_empty_transcript_defaults [] rfl⟩

/-- Claim C10: with zero customer turns the aggregate risk score is exactly
30 (0.25*50 neutral sentiment risk plus 0.35*50 neutral cooperation risk)
and the level is therefore Medium — never Low. -/
theorem C10_empty_transcript_score (items : List Item)
    (h : (extract_messages items).1 = []) :
    (analyze_transcript_items items).risk_score = 30 ∧
    (analyze_transcript_items items).risk_level = RiskLevel.MEDIUM := by
  have hs : (analyze_transcript_items items).risk_score = 30 := by
    rw [risk_score_eq, h, sentiment_nil, cooperation_nil, keywords_nil, flow_nil]
    exact of_decide_eq_true (by with_unfolding_all rfl)
  refine ⟨hs, ?_⟩
  rw [risk_level_eq, hs]
  exact of_decide_eq_true (by with_unfolding_all rfl)

/-- Witness for C10 on a transcript holding a single agent message. -/
theorem C10_empty_transcript_score_witness :
    (extract_messages [⟨"message", "assistant", ["hello"], false, 1⟩]).1 = [] ∧
    ((analyze_transcript_items
        [⟨"message", "assistant", ["hello"], false, 1⟩]).risk_score = 30 ∧
     (analyze_transcript_items
        [⟨"message", "assistant", ["hello"], false, 1⟩]).risk_level =
       RiskLevel.MEDIUM) :=
  ⟨of_decide_eq_true (by with_unfolding_all rfl),
   C10_empty_transcript_score _ (of_decide_eq_true (by with_unfolding_all rfl))⟩

/-! ### Keyword scoring (claim C4) -/

/-- Pull a clip written inside-out: `max(0, min(100, x)) = clip(x, 0, 100)`. -/
theorem clip_comm (x : ℚ) : pymax 0 (pymin 100 x) = pymin 100 (pymax 0 x) := by
  simp only [pymax_eq, pymin_eq, max_def, min_def]
  split_ifs <;> first | rfl | linarith

/-- Claim C4's keyword scorer, written from the spec: count DISTINCT
keywords present as substrings (each keyword at most once, however many
times the lexicon lists it), then `clip(30*H + 15*M - 10*L, 0, 100)`. -/
def distinct_keyword_risk_claim (user_messages : List UserMsg) : ℚ :=
  let all_content := String.intercalate " " (user_messages.map UserMsg.content)
  let high_count :=
    (high_risk_keywords.dedup.filter (fun k => inStr k all_content)).length
  let medium_count :=
    (medium_risk_keywords.dedup.filter (fun k => inStr k all_content)).length
  let low_count :=
    (low_risk_keywords.dedup.filter (fun k => inStr k all_content)).length
  pymin 100 (pymax 0 (30 * (high_count : ℚ) + 15 * (medium_count : ℚ) -
    10 * (low_count : ℚ)))

/-- Counterexample to claim C4 as stated: "bankruptcy" is listed twice in
`high_risk_keywords`, so the single customer turn "bankruptcy" scores 60 in
the code, while distinct-keyword counting predicts 30. -/
theorem C4_distinct_counterexample :
    analyze_keywords [⟨"bankruptcy", false, 1⟩] = 60 ∧
    distinct_keyword_risk_claim [⟨"bankruptcy", false, 1⟩] = 30 ∧
    analyze_keywords [⟨"bankruptcy", false, 1⟩] ≠
      distinct_keyword_risk_claim [⟨"bankruptcy", false, 1⟩] :=
  ⟨of_decide_eq_true (by with_unfolding_all rfl),
   of_decide_eq_true (by with_unfolding_all rfl),
   of_decide_eq_true (by with_unfolding_all rfl)⟩

/-- Amended C4 scorer: the same clip formula, but H, M, L count matching
lexicon LIST ENTRIES with multiplicity, so a keyword listed twice and
present counts twice. -/
def keyword_risk_amended (user_messages : List UserMsg) : ℚ :=
  let all_content := String.intercalate " " (user_messages.map UserMsg.content)
  let high_count :=
    (high_risk_keywords.filter (fun k => inStr k all_content)).length
  let medium_count :=
    (medium_risk_keywords.filter (fun k => inStr k all_content)).length
  let low_count :=
    (low_risk_keywords.filter (fun k => inStr k all_content)).length
  pymin 100 (pymax 0 (30 * (high_count : ℚ) + 15 * (medium_count : ℚ) -
    10 * (low_count : ℚ)))

theorem keyword_clip_general (a b c : ℚ) :
    pymax 0 (pymin 100 (a * 30 + b * 15 - c * 10)) =
      pymin 100 (pymax 0 (30 * a + 15 * b - 10 * c)) := by
  rw [show a * 30 + b * 15 - c * 10 = 30 * a + 15 * b - 10 * c from by ring,
    clip_comm]

/-- Claim C4 amended: the keyword risk equals
`clip(30*H + 15*M - 10*L, 0, 100)` with H, M, L counting lexicon list
entries with multiplicity (not distinct set members). -/
theorem C4_keyword_multiplicity (u : List UserMsg) :
    analyze_keywords u = keyword_risk_amended u := by
  cases u with
  | nil => exact of_decide_eq_true (by with_unfolding_all rfl)
  | cons m t =>
    unfold analyze_keywords keyword_risk_amended countMatches
    rw [if_neg (by simp)]
    dsimp only
    exact keyword_clip_general _ _ _

/-! ### Cooperation scoring (claim C5) -/

/-- Claim C5's cooperation scorer, written from the spec with the indicator
lexicons as sets: each distinct indicator contributes at most once per turn
(+1 or -1 to points, +1 to total); total 0 (including zero customer turns)
gives the neutral 50.0, otherwise `clip(50 + 50*(points/total), 0, 100)`. -/
def cooperation_claim (user_messages : List UserMsg) : ℚ :=
  let points : Int := (user_messages.map (fun msg =>
    (countMatches cooperation_indicators.dedup msg.content : Int) -
    (countMatches non_cooperation_indicators.dedup msg.content : Int))).sum
  let total : Nat := (user_messages.map (fun msg =>
    countMatches cooperation_indicators.dedup msg.content +
    countMatches non_cooperation_indicators.dedup msg.content)).sum
  if total = 0 then 50
  else pymin 100 (pymax 0 (50 + 50 * ((points : ℚ) / (total : ℚ))))

/-- Counterexample to claim C5 as stated: "busy" is listed twice in
`non_cooperation_indicators`, so the single customer turn "yes busy" scores
100/3 in the code (points 1-2 = -1 over total 3), while set semantics
predicts 50 (points 1-1 = 0 over total 2). -/
theorem C5_set_counterexample :
    analyze_cooperation [⟨"yes busy", false, 1⟩] = 100/3 ∧
    cooperation_claim [⟨"yes busy", false, 1⟩] = 50 ∧
    analyze_cooperation [⟨"yes busy", false, 1⟩] ≠
      cooperation_claim [⟨"yes busy", false, 1⟩] :=
  ⟨of_decide_eq_true (by with_unfolding_all rfl),
   of_decide_eq_true (by with_unfolding_all rfl),
   of_decide_eq_true (by with_unfolding_all rfl)⟩

/-- Amended C5 scorer: identical shape, but each indicator contributes once
per lexicon LIST ENTRY (duplicated entries contribute twice per turn). -/
def cooperation_amended (user_messages : List UserMsg) : ℚ :=
  let points : Int := (user_messages.map (fun msg =>
    (countMatches cooperation_indicators msg.content : Int) -
    (countMatches non_cooperation_indicators msg.content : Int))).sum
  let total : Nat := (user_messages.map (fun msg =>
    countMatches cooperation_indicators msg.content +
    countMatches non_cooperation_indicators msg.content)).sum
  if total = 0 then 50
  else pymin 100 (pymax 0 (50 + 50 * ((points : ℚ) / (total : ℚ))))

/-- The cooperation loop accumulates exactly the per-message match counts. -/
theorem cooperation_foldl_eq (l : List UserMsg) (acc : Int × Nat) :
    l.foldl cooperation_step acc =
      (acc.1 + (l.map (fun msg =>
          (countMatches cooperation_indicators msg.content : Int) -
          (countMatches non_cooperation_indicators msg.content : Int))).sum,
       acc.2 + (l.map (fun msg =>
          countMatches cooperation_indicators msg.content +
          countMatches non_cooperation_indicators msg.content)).sum) := by
  induction l generalizing acc with
  | nil => simp
  | cons m t ih =>
    rw [List.foldl_cons, ih]
    simp only [List.map_cons, List.sum_cons]
    unfold cooperation_step
    dsimp only
    rw [Prod.ext_iff]
    refine ⟨?_, ?_⟩
    · dsimp only
      ring
    · dsimp only
      ring

theorem coop_clip_general (x : ℚ) :
    pymax 0 (pymin 100 (50 + x * 50)) = pymin 100 (pymax 0 (50 + 50 * x)) := by
  rw [show (50 : ℚ) + x * 50 = 50 + 50 * x from by ring, clip_comm]

/-- Claim C5 amended: the cooperation score follows the claimed formula with
indicators counted once per lexicon list entry (with multiplicity). -/
theorem C5_cooperation_multiplicity (u : List UserMsg) :
    analyze_cooperation u = cooperation_amended u := by
  cases u with
  | nil => exact of_decide_eq_true (by with_unfolding_all rfl)
  | cons m t =>
    unfold analyze_cooperation cooperation_amended
    rw [if_neg (by simp)]
    dsimp only
    rw [cooperation_foldl_eq]
    dsimp only
    simp only [zero_add]
    split_ifs with h
    · rfl
    · exact coop_clip_general _

/-! ### Language switching (claim C7) -/

/-- The spec's transition count: adjacent pairs that go `H` to `E` or `E` to
`H` (transitions touching `M` never count). -/
def he_transitions : List Lang → Nat
  | a :: b :: rest =>
    (if (a = Lang.H ∧ b = Lang.E) ∨ (a = Lang.E ∧ b = Lang.H) then 1 else 0) +
      he_transitions (b :: rest)
  | _ => 0

/-- The code's switch loop counts exactly the spec's `H`-`E` transitions. -/
theorem count_switches_eq_he (l : List Lang) :
    count_switches l = he_transitions l := by
  induction l with
  | nil => rfl
  | cons a t ih =>
    cases t with
    | nil => rfl
    | cons b r =>
      unfold count_switches he_transitions
      rw [ih]
      congr 1
      cases a <;> cases b <;> decide

/-- Claim C7: the detector returns false below 3 customer turns; otherwise
it returns true iff the number of adjacent H-E transitions strictly exceeds
0.3 times the total number of customer turns. -/
theorem C7_language_switching (u : List UserMsg) :
    (u.length < 3 → detect_language_switching u = false) ∧
    (3 ≤ u.length →
      (detect_language_switching u = true ↔
        (3/10 : ℚ) * (u.length : ℚ) <
          (he_transitions (u.map (fun m => classify_turn m.content)) : ℚ))) := by
  constructor
  · intro h
    unfold detect_language_switching
    rw [if_pos h]
  · intro h
    unfold detect_language_switching
    rw [if_neg (by omega)]
    dsimp only
    rw [count_switches_eq_he, List.length_map]
    simp only [decide_eq_true_eq]
    rw [gt_iff_lt, mul_comm]

/-- Witness for C7: one short transcript (below the 3-turn minimum) and one
three-turn English-Hindi-English alternation. -/
theorem C7_language_switching_witness :
    detect_language_switching [⟨"hello", false, 1⟩] = false ∧
    detect_language_switching
      [⟨"the and is", false, 1⟩, ⟨"paisa nahi hai", false, 1⟩,
       ⟨"the and is", false, 1⟩] = true :=
  ⟨(C7_language_switching _).1 (by norm_num),
   ((C7_language_switching _).2 (by norm_num)).mpr
     (of_decide_eq_true (by with_unfolding_all rfl))⟩

/-! ### Indicator collection order (claim C8) -/

/-- The IndicatorCollector evidence sequence per the spec, before
truncation: high-risk keyword matches, then medium-risk, then Hinglish
patterns (evasive, hostile, financial distress), then structural flags
(call avoidance or disengagement), then the language-switching flag. -/
def evidence_sequence (user_messages : List UserMsg) : List String :=
  let text := String.intercalate " " (user_messages.map UserMsg.content)
  ((high_risk_keywords.filter (fun k => inStr k text)).map
    (fun k => "High risk keyword: \x27" ++ translate_keyword_for_report k ++ "\x27")) ++
  ((medium_risk_keywords.filter (fun k => inStr k text)).map
    (fun k => "Medium risk keyword: \x27" ++ translate_keyword_for_report k ++ "\x27")) ++
  detect_hinglish_patterns text ++
  (match user_messages with
   | [] => ["No user responses - possible call avoidance"]
   | [m] => if wordCount m.content ≤ 2 then
       ["Very brief response - possible disengagement"] else []
   | _ => []) ++
  (if detect_language_switching user_messages then
    ["Frequent language switching - possible avoidance tactic"] else [])

/-- Claim C8: the indicators of the resulting RiskAnalysis are exactly the
first-7 prefix of the evidence sequence in generation order, hence at most
7 entries. -/
theorem C8_indicator_truncation (items : List Item) :
    (analyze_transcript_items items).key_indicators =
      (evidence_sequence (extract_messages items).1).take 7 ∧
    (analyze_transcript_items items).key_indicators.length ≤ 7 := by
  have h7 : identify_key_indicators (extract_messages items).1 =
      (evidence_sequence (extract_messages items).1).take 7 := rfl
  refine ⟨by rw [key_indicators_eq, h7], ?_⟩
  rw [key_indicators_eq, h7, List.length_take]
  exact min_le_left _ _

/-! ### Agent-turn noninterference (claim C9) -/

/-- Erase every item whose role is "assistant": two transcripts are
"identical up to agent turns" when these erasures agree. -/
def remove_assistant (items : List Item) : List Item :=
  items.filter (fun it => it.role != "assistant")

theorem extract_cons_nonuser (it : Item) (rest : List Item)
    (h : ¬ it.role = "user") :
    (extract_messages (it :: rest)).1 = (extract_messages rest).1 := by
  simp only [extract_messages]
  split_ifs with h1 h2 <;> rfl

theorem extract_cons_user (it : Item) (rest : List Item)
    (h1 : it.type = "message") (h2 : it.role = "user") :
    (extract_messages (it :: rest)).1 =
      ⟨(String.intercalate " " it.content).toLower, it.interrupted,
        it.transcript_confidence⟩ :: (extract_messages rest).1 := by
  simp only [extract_messages]
  rw [if_pos h1, if_pos h2]

theorem extract_cons_nonmessage (it : Item) (rest : List Item)
    (h : ¬ it.type = "message") :
    extract_messages (it :: rest) = extract_messages rest := by
  simp only [extract_messages]
  rw [if_neg h]

/-- Erasing agent items does not change the extracted customer turns. -/
theorem extract_user_remove_assistant (items : List Item) :
    (extract_messages (remove_assistant items)).1 =
      (extract_messages items).1 := by
  unfold remove_assistant
  induction items with
  | nil => rfl
  | cons it rest ih =>
    rw [List.filter_cons]
    by_cases hrole : it.role = "assistant"
    · rw [if_neg (by simp [hrole])]
      rw [ih, extract_cons_nonuser it rest (by rw [hrole]; decide)]
    · rw [if_pos (by simp [hrole])]
      by_cases huser : it.role = "user"
      · by_cases htype : it.type = "message"
        · rw [extract_cons_user it (List.filter (fun i => i.role != "assistant") rest)
              htype huser,
            extract_cons_user it rest htype huser, ih]
        · rw [extract_cons_nonmessage it
              (List.filter (fun i => i.role != "assistant") rest) htype,
            extract_cons_nonmessage it rest htype, ih]
      · rw [extract_cons_nonuser it
            (List.filter (fun i => i.role != "assistant") rest) huser,
          extract_cons_nonuser it rest huser, ih]

/-- The pipeline as a function of the customer turns alone; the assistant
list can be replaced by `[]` because `_analyze_conversation_flow` never
reads it. -/
def analyze_user_messages (user_messages : List UserMsg) : RiskAnalysis :=
  let sentiment_score := analyze_sentiment user_messages
  let cooperation_score := analyze_cooperation user_messages
  let keyword_risk_score := analyze_keywords user_messages
  let conversation_flow_score := analyze_conversation_flow user_messages []
  let risk_score := calculate_risk_score sentiment_score cooperation_score
    keyword_risk_score conversation_flow_score
  let risk_level := determine_risk_level risk_score
  let key_indicators := identify_key_indicators user_messages
  let recommendations :=
    generate_recommendations risk_level key_indicators cooperation_score
  ⟨risk_level, risk_score, sentiment_score, cooperation_score,
    key_indicators, recommendations⟩

theorem analyze_via_user (items : List Item) :
    analyze_transcript_items items =
      analyze_user_messages (extract_messages items).1 := rfl

/-- Claim C9: two transcripts that differ only in agent items (all items
with role "assistant" erased, the rest identical) produce identical
analyses in every modelled field — agent messages are collected but never
influence any signal, indicator, or recommendation. -/
theorem C9_agent_noninterference (items1 items2 : List Item)
    (h : remove_assistant items1 = remove_assistant items2) :
    analyze_transcript_items items1 = analyze_transcript_items items2 := by
  rw [analyze_via_user, analyze_via_user, ← extract_user_remove_assistant items1,
    ← extract_user_remove_assistant items2, h]

/-- Witness for C9: adding an agent turn to a one-turn customer transcript
leaves the analysis unchanged. -/
theorem C9_agent_noninterference_witness :
    remove_assistant
        [⟨"message", "user", ["hello there"], false, 1⟩,
         ⟨"message", "assistant", ["please pay soon"], false, 1⟩] =
      remove_assistant [⟨"message", "user", ["hello there"], false, 1⟩] ∧
    analyze_transcript_items
        [⟨"message", "user", ["hello there"], false, 1⟩,
         ⟨"message", "assistant", ["please pay soon"], false, 1⟩] =
      analyze_transcript_items [⟨"message", "user", ["hello there"], false, 1⟩] :=
  ⟨of_decide_eq_true (by with_unfolding_all rfl),
   C9_agent_noninterference _ _ (of_decide_eq_true (by with_unfolding_all rfl))⟩

end RiskAnalyzer
